import Mathlib

/-!
Verification of the ingestion core of the scout repository
(`backend/open_webui/routers/retrieval.py`) against its natural-language
specification.  The Python source is shallowly embedded: pure fragments
become Lean functions, the stateful vector store is passed explicitly,
fallible code returns `Except`, and external collaborators (the langchain
text splitter, the embedding function, `psutil` readings, uuid generation,
the `Files` table) are abstracted as parameters of an environment record.
The vector-store gateway itself (`VECTOR_DB_CLIENT`, whose implementation
lives outside the provided sources) is modelled from the spec's gateway
contract where a concrete store is needed.
-/

namespace Scout

/-! ### Metadata values

Python metadata dictionaries hold heterogeneous scalars.  The claims only
exercise string and integer values plus `None`, so metadata values are
embedded as the inductive `MVal`; dictionaries become association lists in
which the first binding of a key wins. -/

inductive MVal where
  | null : MVal
  | str : String → MVal
  | int : Int → MVal
deriving DecidableEq, Repr

/-- Python truthiness of a metadata value: `None`, `""` and `0` are falsy. -/
def MVal.truthy : MVal → Bool
  | .null => false
  | .str s => !s.isEmpty
  | .int n => n != 0

/-- Rendering of a metadata value inside an f-string. -/
def MVal.render : MVal → String
  | .null => "None"
  | .str s => s
  | .int n => toString n

/-- The `page_number + 1` arithmetic of the page-header logic.  The source
only ever adds 1 to integer page numbers; non-integer values are returned
unchanged (Python would raise a TypeError there, a path no claim exercises). -/
def MVal.inc : MVal → MVal
  | .int n => .int (n + 1)
  | v => v

abbrev Metadata := List (String × MVal)

/-- Lookup in a metadata dictionary (first binding of the key wins). -/
def Metadata.get (m : Metadata) (k : String) : Option MVal :=
  (m.find? (fun p => p.1 == k)).map (fun p => p.2)

/-- The dict merge `\x7b**a, **b\x7d`: bindings of `b` override those of `a`.
With first-binding-wins lookup this is realised by putting `b` first. -/
def Metadata.merge (a b : Metadata) : Metadata := b ++ a

/-- The comprehension dropping `None`-valued keys from a combined dict. -/
def Metadata.dropNull (m : Metadata) : Metadata :=
  m.filter (fun p => p.2 ≠ MVal.null)

/-! ### Documents and the vector store -/

/-- langchain `Document`: page content plus a metadata dict. -/
structure Document where
  page_content : String
  metadata : Metadata
deriving DecidableEq, Repr

/-- The unit persisted to the vector store. -/
structure VectorItem where
  id : String
  text : String
  vector : List ℚ
  metadata : Metadata
deriving DecidableEq, Repr

/-- Modelled from the spec: the gateway's query result shape, grouped per
query (outer sequence indexes queries, inner indexes hits). -/
structure QueryResult where
  ids : List (List String)
  documents : List (List String)
  metadatas : List (List Metadata)
deriving DecidableEq, Repr

/-- Modelled from the spec: the vector store as a map from collection name
to its items (the `VECTOR_DB_CLIENT` backend is not part of the provided
sources; the spec gives its narrow CRUD contract). -/
abbrev Store := List (String × List VectorItem)

/-- Modelled from the spec: `has_collection` is a cheap existence probe. -/
def Store.hasCollection (s : Store) (name : String) : Bool :=
  (s.find? (fun c => c.1 == name)).isSome

/-- Items of a collection; a collection that does not exist is empty. -/
def Store.collectionItems (s : Store) (name : String) : List VectorItem :=
  match s.find? (fun c => c.1 == name) with
  | some c => c.2
  | none => []

/-- Modelled from the spec: `insert` appends items, creating the collection
implicitly on first insert. -/
def Store.insertItems (s : Store) (name : String) (items : List VectorItem) : Store :=
  if s.hasCollection name then
    s.map (fun c => if c.1 = name then (c.1, c.2 ++ items) else c)
  else
    s ++ [(name, items)]

/-- Modelled from the spec: `delete_collection`; deleting a non-existent
collection is a no-op. -/
def Store.deleteCollection (s : Store) (name : String) : Store :=
  s.filter (fun c => c.1 ≠ name)

/-- Modelled from the spec: `query` filtered by `\x7b"hash": h\x7d`, returning one
query group; a collection that does not exist yields an empty result, not an
error. -/
def Store.queryByHash (s : Store) (name : String) (h : MVal) : QueryResult :=
  let hits := (s.collectionItems name).filter (fun it => it.metadata.get "hash" == some h)
  ⟨[hits.map (fun it => it.id)], [hits.map (fun it => it.text)], [hits.map (fun it => it.metadata)]⟩

/-! ### Load monitor / batch sizer (`get_dynamic_batch_size`)

`psutil.cpu_percent` and available memory (in MB) are real-valued readings;
they are embedded as rationals, which the threshold comparisons decide. -/

/-- Embedding of `get_dynamic_batch_size` (retrieval.py lines 128-149).
`cpu_percent` and `available_mem_mb` stand for the `psutil` samples taken
inside the function. -/
def get_dynamic_batch_size (cpu_percent available_mem_mb : ℚ)
    (max_size : ℕ := 1000) (min_size : ℕ := 10) : ℕ :=
  if cpu_percent < 50 ∧ available_mem_mb > 1000 then
    max_size
  else if cpu_percent < 75 ∧ available_mem_mb > 500 then
    max (max_size / 2) min_size
  else
    min_size

/-! ### `save_docs_to_vector_db` (retrieval.py lines 887-1102)

External collaborators are collected in `SDConfig`: the langchain text
splitter (`splitText` is `text_splitter.split_documents` applied to a single
document), the embedding function, the uuid supply, the configured
`TEXT_SPLITTER` kind, the serialized embedding-config string, and the
`psutil` readings taken when the function calls `get_dynamic_batch_size`. -/

structure SDConfig where
  TEXT_SPLITTER : String
  splitText : Document → List Document
  embed : List String → List (List ℚ)
  uuid : ℕ → String
  embedding_config : String
  cpu : ℚ
  mem : ℚ

/-- Counters for the externally observable effects of one
`save_docs_to_vector_db` call: calls to the embedding function and insert
calls issued to the vector store. -/
structure SDEffects where
  embed_calls : ℕ
  insert_calls : ℕ
deriving DecidableEq, Repr

/-- The `ValueError`s `save_docs_to_vector_db` can raise. -/
inductive SDError where
  | duplicateContent
  | invalidTextSplitter
  | emptyContent
  | metadataMismatch
deriving DecidableEq, Repr

/-- The `metadata` argument: absent, a single dict, or a sequence of dicts. -/
inductive MetaArg where
  | absent : MetaArg
  | dict : Metadata → MetaArg
  | seq : List Metadata → MetaArg
deriving DecidableEq, Repr

/-- Outcome of one `save_docs_to_vector_db` call: the returned value or the
raised error, the final store, and the effect counters. -/
structure SDResult where
  result : Except SDError Bool
  store : Store
  effects : SDEffects
deriving Repr

/-- Lines 920-935: `metadata and isinstance(metadata, Sequence) and not dict`
selects an explicit metadata list; an empty list is falsy and is treated as
no metadata at all. -/
def metadata_list_of : MetaArg → Option (List Metadata)
  | .seq ms => if ms.isEmpty then none else some ms
  | _ => none

/-- Lines 923-935: on the single-dict path (a truthy dict), if the dict has a
`"hash"` key, query the store filtered by that hash; a non-empty first id
group rejects the whole call with the duplicate-content error. -/
def dup_check (store : Store) (collection_name : String) : MetaArg → Except SDError Unit
  | .dict m =>
    if m.isEmpty then .ok ()
    else
      match m.get "hash" with
      | some h =>
        if ((store.queryByHash collection_name h).ids.headD []).isEmpty then .ok ()
        else .error .duplicateContent
      | none => .ok ()
  | _ => .ok ()

/-- Lines 969-970: `# [Page page + 1]` header from the `page` key when it is
present and not `None`. -/
def page_header_page (md : Metadata) : String :=
  match md.get "page" with
  | some v => if v ≠ MVal.null then "# [Page " ++ v.inc.render ++ "]:\n\n" else ""
  | none => ""

/-- Lines 967-968: `page_number` branch of the header chain. -/
def page_header_num (md : Metadata) : String :=
  match md.get "page_number" with
  | some v =>
    if v ≠ MVal.null then "# [Page " ++ v.inc.render ++ "]:\n\n"
    else page_header_page md
  | none => page_header_page md

/-- Lines 963-970: the per-document page header.  `page_label` is used when
truthy; otherwise `page_number`, then `page`, when present and not `None`. -/
def page_header (md : Metadata) : String :=
  match md.get "page_label" with
  | some v =>
    if v.truthy then "# [Page " ++ v.render ++ "]:\n\n"
    else page_header_num md
  | none => page_header_num md

/-- Lines 974-983: per-chunk post-processing: strip, drop an already-present
header to avoid duplication, then re-prepend the header. -/
def apply_header (header : String) (chunk : Document) : Document :=
  let content := chunk.page_content.trim
  let content :=
    if ¬header.isEmpty ∧ header.isPrefixOf content then
      (content.drop header.length).trim
    else content
  { chunk with page_content := header ++ content }

/-- Lines 937-989: the splitting stage.  `TEXT_SPLITTER` must be `""`,
`"character"` or `"token"` (anything else raises the invalid-splitter
error); each document is split by the external splitter and its chunks get
the page-header treatment. -/
def split_stage (cfg : SDConfig) (split : Bool) (docs : List Document) :
    Except SDError (List Document) :=
  if split then
    if cfg.TEXT_SPLITTER = "" ∨ cfg.TEXT_SPLITTER = "character" ∨
        cfg.TEXT_SPLITTER = "token" then
      .ok (docs.flatMap (fun doc =>
        let header := page_header doc.metadata
        (cfg.splitText doc).map (apply_header header)))
    else .error .invalidTextSplitter
  else .ok docs

/-- Lines 999-1019: combine a chunk's metadata with the extra metadata,
drop `None` values, and record the embedding config. -/
def combine_meta (cfg : SDConfig) (docMeta extra : Metadata) : Metadata :=
  Metadata.merge (Metadata.dropNull (Metadata.merge docMeta extra))
    [("embedding_config", MVal.str cfg.embedding_config)]

/-- Line 1011: `metadata if metadata else \x7b\x7d` on the per-document path. -/
def fallback_dict : MetaArg → Metadata
  | .dict m => m
  | _ => []

/-- Lines 995-1019: build the per-item metadata list.  With an explicit
(non-empty) metadata list the length must match the post-split document
count, else the metadata-mismatch error is raised. -/
def metadata_stage (cfg : SDConfig) (metadata : MetaArg) (docs2 : List Document) :
    Except SDError (List Metadata) :=
  match metadata_list_of metadata with
  | some ms =>
    if ms.length ≠ docs2.length then .error .metadataMismatch
    else .ok ((docs2.zip ms).map (fun p => combine_meta cfg p.1.metadata p.2))
  | none =>
    .ok (docs2.map (fun d => combine_meta cfg d.metadata (fallback_dict metadata)))

/-- Line 1086: the batch partition `[items[i : i + bs] for i in range(0, n, bs)]`.
The Python `range` step is never 0 here (the dynamic batch size is at least
`min_size = 10`); a 0 step is mapped to no batches. -/
def batchesOf (bs : ℕ) (xs : List VectorItem) : List (List VectorItem) :=
  if bs = 0 then []
  else (List.range ((xs.length + bs - 1) / bs)).map
    (fun i => (xs.drop (i * bs)).take bs)

/-- Lines 1045-1099: embed the texts (newlines replaced by spaces), build the
items with fresh uuids, partition them with the dynamically chosen batch
size, and insert every batch through `_safe_insert`.  The thread pool and
semaphore only bound concurrency (modelled separately); the resulting store
is the same as inserting the batches in order. -/
def insert_go (cfg : SDConfig) (store : Store) (collection_name : String)
    (texts : List String) (metadatas : List Metadata) : SDResult :=
  let embeddings := cfg.embed (texts.map (fun x => x.replace "\n" " "))
  let items := texts.enum.map (fun p =>
    VectorItem.mk (cfg.uuid p.1) p.2 (embeddings.getD p.1 []) (metadatas.getD p.1 []))
  let batch_size := get_dynamic_batch_size cfg.cpu cfg.mem
  let batches := batchesOf batch_size items
  ⟨.ok true, batches.foldl (fun s b => s.insertItems collection_name b) store,
    ⟨1, batches.length⟩⟩

/-- Lines 1032-1099: the insertion stage.  If the collection exists:
overwrite deletes it first, while `overwrite = False` and `add = False`
returns `True` immediately without touching the store. -/
def insert_stage (cfg : SDConfig) (store : Store) (collection_name : String)
    (overwrite add : Bool) (texts : List String) (metadatas : List Metadata) :
    SDResult :=
  if store.hasCollection collection_name then
    if overwrite then
      insert_go cfg (store.deleteCollection collection_name) collection_name texts metadatas
    else if add = false then ⟨.ok true, store, ⟨0, 0⟩⟩
    else insert_go cfg store collection_name texts metadatas
  else insert_go cfg store collection_name texts metadatas

/-- Embedding of `save_docs_to_vector_db` (retrieval.py lines 887-1102):
duplicate check on the single-dict metadata path, optional splitting, the
empty-content check, metadata construction with the length check, then the
insertion stage.  The datetime/list string-coercion loop (lines 1023-1030)
is the identity on the scalar metadata values modelled here. -/
def save_docs_to_vector_db (cfg : SDConfig) (store : Store) (docs : List Document)
    (collection_name : String) (metadata : MetaArg := .absent)
    (overwrite : Bool := false) (split : Bool := true) (add : Bool := false) :
    SDResult :=
  match dup_check store collection_name metadata with
  | .error e => ⟨.error e, store, ⟨0, 0⟩⟩
  | .ok _ =>
    match split_stage cfg split docs with
    | .error e => ⟨.error e, store, ⟨0, 0⟩⟩
    | .ok docs2 =>
      if docs2.isEmpty then ⟨.error .emptyContent, store, ⟨0, 0⟩⟩
      else
        match metadata_stage cfg metadata docs2 with
        | .error e => ⟨.error e, store, ⟨0, 0⟩⟩
        | .ok metadatas =>
          insert_stage cfg store collection_name overwrite add
            (docs2.map (fun d => d.page_content)) metadatas

/-! ### The batch file orchestrator (`process_files_batch`, lines 2015-2173) -/

/-- Embedding of `getErrorMsg` (exceptionutil.py): the exception's first
argument when present and truthy, otherwise a generic message. -/
def getErrorMsg (args0 : Option String) : String :=
  match args0 with
  | some s =>
    if s.isEmpty then "Internal error occruced while processing request" else s
  | none => "Internal error occruced while processing request"

/-- Embedding of `build_user_collection_name` (utils/collections.py). -/
def build_user_collection_name (user_id : String) : String :=
  "user-" ++ user_id

/-- Lines 2050-2054: the target collection, falling back to the per-user
collection when the form's collection name is absent or empty (falsy). -/
def resolve_collection_name (collection_name : Option String) (user_id : String) :
    String :=
  match collection_name with
  | some c => if c.isEmpty then build_user_collection_name user_id else c
  | none => build_user_collection_name user_id

/-- The `FileModel` rows handed to the orchestrator (models/files.py is not
part of the provided sources; the fields are the ones the orchestrator
reads).  `data_content` stands for `file.data.get("content", "")` and
`meta` is `Optional` — line 2089 of the source explicitly guards for
`file.meta` being `None`. -/
structure FileModel where
  id : String
  filename : String
  user_id : String
  data_content : String
  meta : Option Metadata
deriving DecidableEq, Repr

/-- Outcome of one `VECTOR_DB_CLIENT.query` duplicate probe as seen by the
orchestrator: the call raised, returned `None`, or returned grouped ids. -/
inductive QueryOutcome where
  | raised : QueryOutcome
  | noneResult : QueryOutcome
  | grouped : List (List String) → QueryOutcome
deriving DecidableEq, Repr

/-- Lines 2069-2079: the duplicate decision.  A raised query is swallowed
(`except` only logs), a `None` result is not a duplicate, and `ids[0]` on an
empty group list raises an `IndexError` inside the same `try`, which is also
swallowed; only a non-empty first id group marks a duplicate. -/
def dup_of : QueryOutcome → Bool
  | .grouped (g :: _) => !g.isEmpty
  | _ => false

/-- External collaborators of `process_files_batch`: the content hash
(`calculate_sha256_string`), `mimetypes.guess_type`, the vector-store query
(which may raise), and the outcome of the nested `save_docs_to_vector_db`
call (success, or the raised error's message).  The `Files` table updates
are modelled as always-succeeding external effects. -/
structure BatchEnv where
  hashOf : String → String
  guessType : String → Option String
  query : String → String → QueryOutcome
  saveDocs : List Document → List Metadata → Except String Unit

/-- The pydantic response item: `status` is a required field, `error`
defaults to `None`. -/
structure BatchProcessFilesResult where
  file_id : String
  status : String
  error : Option String := none
deriving DecidableEq, Repr

/-- An exception escaping `process_files_batch` itself. -/
inductive BatchCrash where
  | validationError
deriving DecidableEq, Repr

/-- Pydantic construction of `BatchProcessFilesResult`: constructing the
model without its required `status` field raises a `ValidationError`. -/
def mkBatchResult (file_id : String) (status : Option String)
    (error : Option String) : Except BatchCrash BatchProcessFilesResult :=
  match status with
  | some s => .ok ⟨file_id, s, error⟩
  | none => .error .validationError

structure BatchProcessFilesResponse where
  results : List BatchProcessFilesResult
  errors : List BatchProcessFilesResult
deriving DecidableEq, Repr

/-- The loop state of the per-file preparation pass, with a trace of the
duplicate-check queries issued (collection name and scalar hash filter). -/
structure PrepState where
  results : List BatchProcessFilesResult
  errors : List BatchProcessFilesResult
  all_docs : List Document
  all_metadata : List Metadata
  queryCalls : List (String × String)
deriving DecidableEq, Repr

/-- Python `or` on metadata values (truthiness). -/
def pyOr (a b : MVal) : MVal := if a.truthy then a else b

/-- The CPython message of the `TypeError` raised by `\x7b**file.meta, ...\x7d`
when `file.meta` is `None` (line 2099). -/
def noneMappingMsg : String := "'NoneType' object is not a mapping"

/-- Lines 2061-2134: the body of the per-file loop.  Hash the content,
issue the per-file duplicate query (exceptions swallowed), record
`skipped_duplicate` and stop for duplicates; otherwise build the document
and its metadata and record `prepared`.  Any exception inside the loop body
— here the `TypeError` from splatting a `None` `file.meta` — is caught by
the per-file handler, which appends a `failed` entry to `errors` only. -/
def prepFile (env : BatchEnv) (collection_name : String)
    (session_id : Option String) (s : PrepState) (file : FileModel) : PrepState :=
  let hash := env.hashOf file.data_content
  let outcome := env.query collection_name hash
  let s := { s with queryCalls := s.queryCalls ++ [(collection_name, hash)] }
  if dup_of outcome then
    { s with results := s.results ++ [⟨file.id, "skipped_duplicate", none⟩] }
  else
    match file.meta with
    | none =>
      { s with errors :=
          s.errors ++ [⟨file.id, "failed", some (getErrorMsg (some noneMappingMsg))⟩] }
    | some m =>
      let dt1 := pyOr ((m.get "doc_type").getD MVal.null)
        ((m.get "content_type").getD MVal.null)
      let doc_type :=
        if dt1.truthy then dt1
        else
          match env.guessType file.filename with
          | some t => MVal.str t
          | none => MVal.null
      let sessionMeta : Metadata :=
        match session_id with
        | some sid => [("session_id", MVal.str sid)]
        | none => []
      let doc := Document.mk (file.data_content.replace "<br/>" "\n")
        (Metadata.merge m
          ([("name", MVal.str file.filename), ("created_by", MVal.str file.user_id),
            ("file_id", MVal.str file.id), ("source", MVal.str file.filename)] ++
            sessionMeta))
      let metadata : Metadata :=
        [("file_id", MVal.str file.id), ("name", MVal.str file.filename),
          ("hash", MVal.str hash), ("doc_type", doc_type)] ++ sessionMeta
      { s with
          all_docs := s.all_docs ++ [doc]
          all_metadata := s.all_metadata ++ [metadata]
          results := s.results ++ [⟨file.id, "prepared", none⟩] }

/-- The whole per-file loop (lines 2061-2134). -/
def prepPhase (env : BatchEnv) (collection_name : String)
    (session_id : Option String) (files : List FileModel) : PrepState :=
  files.foldl (prepFile env collection_name session_id) ⟨[], [], [], [], []⟩

/-- Whether the per-file preparation of `file` raises: the file is not
seen as a duplicate and its `meta` is `None` (the `\x7b**file.meta, ...\x7d`
splat on line 2099 then raises a `TypeError`). -/
def prep_failed (env : BatchEnv) (collection_name : String) (file : FileModel) :
    Bool :=
  !dup_of (env.query collection_name (env.hashOf file.data_content)) &&
    file.meta.isNone

/-- Lines 2158-2165: the insertion-failure handler.  Each `prepared` result
is flipped to `failed` and an error record is appended — but that record is
constructed without the required `status` field, so the first `prepared`
result makes the construction raise a `ValidationError`. -/
def markFailed (errMsg : String) :
    List BatchProcessFilesResult →
    Except BatchCrash (List BatchProcessFilesResult × List BatchProcessFilesResult)
  | [] => .ok ([], [])
  | r :: rs =>
    if r.status = "prepared" then
      match mkBatchResult r.file_id none (some errMsg) with
      | .error c => .error c
      | .ok e =>
        match markFailed errMsg rs with
        | .error c => .error c
        | .ok (rs2, es2) => .ok ({ r with status := "failed" } :: rs2, e :: es2)
    else
      match markFailed errMsg rs with
      | .error c => .error c
      | .ok (rs2, es2) => .ok (r :: rs2, es2)

/-- Lines 2136-2173: after the loop, all prepared documents are saved with
one `save_docs_to_vector_db` call; on success every `prepared` result
becomes `completed`, on failure the handler of `markFailed` runs (and its
`ValidationError` propagates out of the endpoint). -/
def finalize (env : BatchEnv) (s : PrepState) :
    Except BatchCrash BatchProcessFilesResponse :=
  if s.all_docs.isEmpty then .ok ⟨s.results, s.errors⟩
  else
    match env.saveDocs s.all_docs s.all_metadata with
    | .ok _ =>
      .ok ⟨s.results.map (fun r =>
        if r.status = "prepared" then { r with status := "completed" } else r),
        s.errors⟩
    | .error e =>
      match markFailed (getErrorMsg (some e)) s.results with
      | .error c => .error c
      | .ok (rs, es) => .ok ⟨rs, s.errors ++ es⟩

/-- Embedding of `process_files_batch` (retrieval.py lines 2032-2173). -/
def process_files_batch (env : BatchEnv) (files : List FileModel)
    (collection_name : Option String) (user_id : String)
    (session_id : Option String) : Except BatchCrash BatchProcessFilesResponse :=
  finalize env
    (prepPhase env (resolve_collection_name collection_name user_id) session_id files)

/-! ### Bounded-concurrency model for `_safe_insert` (lines 217-223)

`CONCURRENT_INSERTION_SEMAPHORE = BoundedSemaphore(value=5)` guards every
vector-store insert: `_safe_insert` acquires a permit, performs the insert,
and releases the permit when the `with` block exits.  The interleaving of
worker threads is modelled as a transition system over the semaphore state:
`available` free permits and `inflight` inserts currently executing.  (The
pool created in `save_docs_to_vector_db` additionally caps its own workers
at `min(4, len(batches))`; the semaphore alone already yields the bound.) -/

def CONCURRENT_INSERTION_PERMITS : ℕ := 5

structure InsertPoolState where
  available : ℕ
  inflight : ℕ
deriving DecidableEq, Repr

/-- One scheduler step: a worker acquires a permit and starts its insert, or
an insert finishes and its permit is released. -/
inductive SafeInsertStep : InsertPoolState → InsertPoolState → Prop where
  | acquire (a f : ℕ) : SafeInsertStep ⟨a + 1, f⟩ ⟨a, f + 1⟩
  | release (a f : ℕ) : SafeInsertStep ⟨a, f + 1⟩ ⟨a + 1, f⟩

/-- The module-level initial state: all 5 permits free, nothing in flight. -/
def initialPoolState : InsertPoolState := ⟨CONCURRENT_INSERTION_PERMITS, 0⟩

/-! ### Concrete instances used by witnesses and counterexamples -/

/-- A concrete `save_docs_to_vector_db` configuration: character splitting
that keeps each document whole, a constant embedding, a deterministic uuid
supply, and an idle machine (cpu 0, 2000 MB free). -/
def cfgW : SDConfig :=
  ⟨"", fun d => [d], fun ts => ts.map (fun _ => [0]), fun n => "id-" ++ toString n,
    "cfg", 0, 2000⟩

def docW : Document := ⟨"hello", []⟩

def itemW : VectorItem := ⟨"id1", "alpha", [], [("hash", MVal.str "h1")]⟩

/-- A store whose collection `"c"` already holds an item with hash `"h1"`. -/
def storeW : Store := [("c", [itemW])]

def mW : Metadata := [("hash", MVal.str "h1")]

def hashW (s : String) : String := "sha-" ++ s

def guessW (_ : String) : Option String := some "text/plain"

/-- Orchestrator environment in which no duplicate is found (the query
returns one empty id group) and the shared insertion call succeeds. -/
def envOk : BatchEnv :=
  ⟨hashW, guessW, fun _ _ => .grouped [[]], fun _ _ => .ok ()⟩

/-- Environment in which the shared `save_docs_to_vector_db` call raises. -/
def envInsertFail : BatchEnv :=
  ⟨hashW, guessW, fun _ _ => .grouped [[]], fun _ _ => .error "insert failed"⟩

/-- Environment in which the duplicate-check query itself raises. -/
def envRaise : BatchEnv :=
  ⟨hashW, guessW, fun _ _ => .raised, fun _ _ => .ok ()⟩

def fileA : FileModel := ⟨"f1", "f1.txt", "u1", "hello", some []⟩

def fileB : FileModel := ⟨"f2", "f2.txt", "u1", "world", some []⟩

/-- A file whose content is the empty string. -/
def fileEmpty : FileModel := ⟨"f3", "f3.txt", "u1", "", some []⟩

/-- A file whose `meta` is `None`: its preparation raises a `TypeError` at
the `\x7b**file.meta, ...\x7d` splat. -/
def fileNoMeta : FileModel := ⟨"f4", "f4.txt", "u1", "hello", none⟩

def emptyPrepState : PrepState := ⟨[], [], [], [], []⟩

end Scout

namespace Scout

/-! ### Theorems for the batch sizer -/

/-- Claim C6: for every CPU-utilization and available-memory reading,
`get_dynamic_batch_size` returns `max_size` when CPU < 50 and memory > 1000 MB;
otherwise `max (max_size / 2) min_size` when CPU < 75 and memory > 500 MB;
otherwise `min_size`; and (given `min_size ≤ max_size`) the result always lies
in `[min_size, max_size]`. -/
theorem get_dynamic_batch_size_policy (cpu mem : ℚ) (maxs mins : ℕ)
    (h : mins ≤ maxs) :
    ((cpu < 50 ∧ mem > 1000) →
      get_dynamic_batch_size cpu mem maxs mins = maxs) ∧
    (¬(cpu < 50 ∧ mem > 1000) → (cpu < 75 ∧ mem > 500) →
      get_dynamic_batch_size cpu mem maxs mins = max (maxs / 2) mins) ∧
    (¬(cpu < 75 ∧ mem > 500) →
      get_dynamic_batch_size cpu mem maxs mins = mins) ∧
    mins ≤ get_dynamic_batch_size cpu mem maxs mins ∧
    get_dynamic_batch_size cpu mem maxs mins ≤ maxs := by
  unfold get_dynamic_batch_size
  split_ifs with h1 h2
  · refine ⟨fun _ => rfl, fun hc _ => absurd h1 hc, fun hc => ?_, h, le_refl maxs⟩
    exact absurd ⟨h1.1.trans (by norm_num), lt_trans (by norm_num) h1.2⟩ hc
  · refine ⟨fun hc => absurd hc h1, fun _ _ => rfl, fun hc => absurd h2 hc, ?_, ?_⟩
    · exact le_max_right _ _
    · exact max_le (le_trans (Nat.div_le_self _ _) (le_refl maxs)) h
  · refine ⟨fun hc => absurd hc h1, fun _ hc => absurd hc h2, fun _ => rfl, le_refl mins, h⟩

/-- Witness for C6 at a concrete reading (cpu = 0, mem = 2000, bounds 10/1000). -/
theorem get_dynamic_batch_size_policy_witness :
    (((0 : ℚ) < 50 ∧ (2000 : ℚ) > 1000) →
      get_dynamic_batch_size 0 2000 1000 10 = 1000) ∧
    (¬((0 : ℚ) < 50 ∧ (2000 : ℚ) > 1000) → ((0 : ℚ) < 75 ∧ (2000 : ℚ) > 500) →
      get_dynamic_batch_size 0 2000 1000 10 = max (1000 / 2) 10) ∧
    (¬((0 : ℚ) < 75 ∧ (2000 : ℚ) > 500) →
      get_dynamic_batch_size 0 2000 1000 10 = 10) ∧
    10 ≤ get_dynamic_batch_size 0 2000 1000 10 ∧
    get_dynamic_batch_size 0 2000 1000 10 ≤ 1000 :=
  get_dynamic_batch_size_policy 0 2000 1000 10 (by decide)

/-! ### Theorems for the insertion concurrency bound -/

/-- Every `SafeInsertStep` preserves the sum of free permits and in-flight
inserts (the semaphore's counting invariant). -/
lemma safeInsertStep_sum {s t : InsertPoolState} (h : SafeInsertStep s t) :
    t.available + t.inflight = s.available + s.inflight := by
  cases h <;> simp <;> omega

/-- Claim C5: in every schedule of `_safe_insert` workers reachable from the
initial semaphore state, the number of simultaneously in-flight vector-store
insert calls never exceeds 5 (`CONCURRENT_INSERTION_PERMITS`), independently
of how many batches were submitted. -/
theorem inflight_le_permits (s : InsertPoolState)
    (h : Relation.ReflTransGen SafeInsertStep initialPoolState s) :
    s.inflight ≤ CONCURRENT_INSERTION_PERMITS := by
  have hsum : s.available + s.inflight = CONCURRENT_INSERTION_PERMITS := by
    induction h with
    | refl => rfl
    | tail _ hstep ih => rw [safeInsertStep_sum hstep, ih]
  omega

/-- Witness for C5: after one worker acquires a permit and starts its
insert, the in-flight count is within the bound. -/
theorem inflight_le_permits_witness :
    InsertPoolState.inflight ⟨4, 1⟩ ≤ CONCURRENT_INSERTION_PERMITS :=
  inflight_le_permits ⟨4, 1⟩
    (Relation.ReflTransGen.single (SafeInsertStep.acquire 4 0))

/-! ### Theorems for `save_docs_to_vector_db` -/

/-- Claim C7: on the single-dict metadata path, when the query filtered by
the dict's hash returns at least one existing id, `save_docs_to_vector_db`
raises the duplicate-content error with the store untouched: no embedding
call and no insert happen. -/
theorem save_docs_duplicate_hash_rejected (cfg : SDConfig) (store : Store)
    (docs : List Document) (collection_name : String) (m : Metadata) (h : MVal)
    (overwrite split add : Bool)
    (hne : m.isEmpty = false) (hget : m.get "hash" = some h)
    (hdup : (store.queryByHash collection_name h).ids.headD [] ≠ []) :
    save_docs_to_vector_db cfg store docs collection_name (.dict m)
        overwrite split add
      = ⟨.error .duplicateContent, store, ⟨0, 0⟩⟩ := by
  unfold save_docs_to_vector_db dup_check
  rw [List.headD_eq_head?] at hdup
  simp [hne, hget, hdup]

/-- Witness for C7: a store already holding hash `"h1"` in collection `"c"`
rejects a single-dict call carrying the same hash. -/
theorem save_docs_duplicate_hash_rejected_witness :
    save_docs_to_vector_db cfgW storeW [docW] "c" (.dict mW) false true false
      = ⟨.error .duplicateContent, storeW, ⟨0, 0⟩⟩ :=
  save_docs_duplicate_hash_rejected cfgW storeW [docW] "c" mW (MVal.str "h1")
    false true false rfl rfl (by decide)

/-- Counterexample to claim C8 as stated: an explicit empty metadata list
has length 0 ≠ 1 document, yet no metadata-length-mismatch error is raised —
the empty list is falsy, so it is treated as no metadata and the call
succeeds. -/
theorem save_docs_empty_metadata_list_skips_check :
    (save_docs_to_vector_db cfgW [] [docW] "c" (.seq []) false false false).result
        = .ok true
    ∧ List.length ([] : List Metadata) ≠ [docW].length := ⟨rfl, by decide⟩

/-- The splitting stage only ever raises the invalid-splitter error. -/
lemma split_stage_error_eq (cfg : SDConfig) (split : Bool) (docs : List Document)
    (e : SDError) (h : split_stage cfg split docs = .error e) :
    e = .invalidTextSplitter := by
  unfold split_stage at h
  split_ifs at h
  all_goals simp_all

/-- The insertion stage never raises: it always returns `True`. -/
lemma insert_stage_result (cfg : SDConfig) (store : Store) (cname : String)
    (overwrite add : Bool) (texts : List String) (metadatas : List Metadata) :
    (insert_stage cfg store cname overwrite add texts metadatas).result
      = .ok true := by
  unfold insert_stage insert_go
  split_ifs <;> rfl

/-- Claim C8 (amended): with an explicit metadata list, the metadata-length
mismatch error is raised precisely when the list is non-empty (an empty list
is falsy and is ignored) and its length differs from the number of documents
present after the optional splitting step, that number being non-zero (an
empty post-split document list raises the empty-content error first). -/
theorem save_docs_metadata_mismatch_iff (cfg : SDConfig) (store : Store)
    (docs : List Document) (collection_name : String) (ms : List Metadata)
    (overwrite split add : Bool) :
    (save_docs_to_vector_db cfg store docs collection_name (.seq ms)
        overwrite split add).result = .error .metadataMismatch
    ↔ (ms ≠ [] ∧ ∃ ds, split_stage cfg split docs = .ok ds ∧ ds ≠ [] ∧
        ms.length ≠ ds.length) := by
  unfold save_docs_to_vector_db
  have hdc : dup_check store collection_name (.seq ms) = .ok () := rfl
  rw [hdc]
  cases hsp : split_stage cfg split docs with
  | error e =>
    constructor
    · intro h
      have he : e = SDError.metadataMismatch := by
        have h2 : (Except.error e : Except SDError Bool)
            = Except.error SDError.metadataMismatch := h
        injection h2
      have hi := split_stage_error_eq cfg split docs e hsp
      rw [hi] at he
      simp at he
    · rintro ⟨-, ds, hds, -, -⟩
      exact Except.noConfusion hds
  | ok ds =>
    simp only []
    by_cases hempty : ds = []
    · subst hempty
      simp
    · rw [if_neg (by simpa [List.isEmpty_iff] using hempty)]
      unfold metadata_stage metadata_list_of
      by_cases hms : ms = []
      · subst hms
        simp [insert_stage_result]
      · have hmsne : ms.isEmpty = false := by
          simpa [List.isEmpty_iff] using hms
        simp only [hmsne, Bool.false_eq_true, if_false]
        by_cases hlen : ms.length = ds.length
        · rw [if_neg (by simpa using hlen)]
          rw [insert_stage_result]
          simp [hlen]
        · rw [if_pos hlen]
          constructor
          · intro _
            exact ⟨hms, ds, rfl, hempty, hlen⟩
          · intro _
            rfl

/-- Claim C9: when the target collection already exists and both `overwrite`
and `add` are false, `save_docs_to_vector_db` leaves the store unchanged,
makes no embedding call and issues no insert; every normal return is `True`,
and when the pre-insertion stages pass the call does return `True` — success
indistinguishable from an insertion. -/
theorem save_docs_existing_collection_frame (cfg : SDConfig) (store : Store)
    (docs : List Document) (collection_name : String) (marg : MetaArg)
    (split : Bool) (hcoll : store.hasCollection collection_name = true) :
    ((save_docs_to_vector_db cfg store docs collection_name marg false split
        false).store = store) ∧
    ((save_docs_to_vector_db cfg store docs collection_name marg false split
        false).effects = ⟨0, 0⟩) ∧
    (∀ b, (save_docs_to_vector_db cfg store docs collection_name marg false split
        false).result = .ok b → b = true) ∧
    (∀ ds ms, dup_check store collection_name marg = .ok () →
      split_stage cfg split docs = .ok ds → ds ≠ [] →
      metadata_stage cfg marg ds = .ok ms →
      (save_docs_to_vector_db cfg store docs collection_name marg false split
        false).result = .ok true) := by
  unfold save_docs_to_vector_db
  cases hdc : dup_check store collection_name marg with
  | error e =>
    refine ⟨rfl, rfl, ?_, ?_⟩
    · intro b h
      exact Except.noConfusion h
    · intro ds ms hd _ _ _
      exact Except.noConfusion hd
  | ok u =>
    cases hsp : split_stage cfg split docs with
    | error e =>
      refine ⟨rfl, rfl, ?_, ?_⟩
      · intro b h
        exact Except.noConfusion h
      · intro ds ms _ hs _ _
        exact Except.noConfusion hs
    | ok ds =>
      simp only []
      by_cases hempty : ds.isEmpty
      · rw [if_pos hempty]
        refine ⟨rfl, rfl, ?_, ?_⟩
        · intro b h
          exact Except.noConfusion h
        · intro ds2 ms _ hs hne _
          injection hs with hs2
          subst hs2
          exact absurd (by simpa [List.isEmpty_iff] using hempty) hne
      · rw [if_neg hempty]
        cases hmd : metadata_stage cfg marg ds with
        | error e =>
          refine ⟨rfl, rfl, ?_, ?_⟩
          · intro b h
            exact Except.noConfusion h
          · intro ds2 ms _ hs _ hm
            injection hs with hs2
            subst hs2
            rw [hmd] at hm
            exact Except.noConfusion hm
        | ok metadatas =>
          simp only []
          unfold insert_stage
          rw [if_pos hcoll, if_neg (show ¬(false = true) by decide),
            if_pos (show (false = false) from rfl)]
          refine ⟨rfl, rfl, ?_, ?_⟩
          · intro b h
            injection h with h2
            exact h2.symm
          · intro _ _ _ _ _ _
            rfl

/-- Witness for C9: on a store where collection `"c"` exists, a
no-overwrite, no-add call returns `True` and leaves everything untouched. -/
theorem save_docs_existing_collection_frame_witness :
    ((save_docs_to_vector_db cfgW storeW [docW] "c" .absent false true
        false).store = storeW) ∧
    ((save_docs_to_vector_db cfgW storeW [docW] "c" .absent false true
        false).effects = ⟨0, 0⟩) ∧
    (∀ b, (save_docs_to_vector_db cfgW storeW [docW] "c" .absent false true
        false).result = .ok b → b = true) ∧
    (∀ ds ms, dup_check storeW "c" .absent = .ok () →
      split_stage cfgW true [docW] = .ok ds → ds ≠ [] →
      metadata_stage cfgW .absent ds = .ok ms →
      (save_docs_to_vector_db cfgW storeW [docW] "c" .absent false true
        false).result = .ok true) :=
  save_docs_existing_collection_frame cfgW storeW [docW] "c" .absent true rfl

/-! ### Theorems for the batch file orchestrator -/

/-- Claim C1 fails on the code: the per-file loop issues one vector-store
query per file, each with a single scalar hash filter.  A two-file batch
with distinct contents produces two query calls, not the one batched call
the spec (and the repository's own test, which asserts a single call whose
hash filter is a list) requires. -/
theorem process_files_batch_queries_per_file :
    (prepPhase envOk "c" none [fileA, fileB]).queryCalls
      = [("c", hashW "hello"), ("c", hashW "world")]
    ∧ (prepPhase envOk "c" none [fileA, fileB]).queryCalls.length ≠ 1 :=
  ⟨rfl, by decide⟩

/-- Claim C4 fails on the code: a file whose content is the empty string is
never finalized as `skipped_empty` (that status does not occur in
`process_files_batch` at all); it is `prepared` and, when the shared
insertion call succeeds, ends `completed`. -/
theorem process_files_batch_no_skipped_empty :
    process_files_batch envOk [fileEmpty] (some "c") "u1" none
      = .ok ⟨[⟨"f3", "completed", none⟩], []⟩
    ∧ "completed" ≠ "skipped_empty" := ⟨rfl, by decide⟩

/-- Claim C3 fails on the code: when the shared `save_docs_to_vector_db`
call throws with at least one `prepared` document, the error handler
constructs `BatchProcessFilesResult(file_id=..., error=...)` without the
required `status` field, so `process_files_batch` raises a pydantic
`ValidationError` instead of returning the failed results. -/
theorem process_files_batch_insert_failure_raises :
    process_files_batch envInsertFail [fileA] (some "c") "u1" none
      = .error .validationError := rfl

/-- Counterexample to claim C2 as stated: a file whose preparation raises
(here: `meta` is `None`, so the metadata splat throws a `TypeError`) is
recorded in `errors` only, so `results` has 0 entries for 1 input file. -/
theorem process_files_batch_failed_file_missing_from_results :
    process_files_batch envOk [fileNoMeta] (some "c") "u1" none
      = .ok ⟨[], [⟨"f4", "failed", some noneMappingMsg⟩]⟩
    ∧ (0 : ℕ) ≠ [fileNoMeta].length := ⟨rfl, by decide⟩

/-- One step of the per-file loop appends the file's id to `results` exactly
when its preparation does not raise. -/
lemma prepFile_results_ids (env : BatchEnv) (cname : String) (sid : Option String)
    (s : PrepState) (f : FileModel) :
    ((prepFile env cname sid s f).results).map (fun r => r.file_id)
      = s.results.map (fun r => r.file_id)
        ++ (if prep_failed env cname f then [] else [f.id]) := by
  unfold prepFile prep_failed
  by_cases hq : dup_of (env.query cname (env.hashOf f.data_content)) = true
  · simp [hq]
  · cases hm : f.meta with
    | none => simp [hq, hm]
    | some m => simp [hq, hm]

/-- The id lists accumulated by the whole per-file loop: the initial ids
followed by the ids of exactly the files whose preparation did not raise. -/
lemma prep_foldl_results_ids (env : BatchEnv) (cname : String)
    (sid : Option String) :
    ∀ (files : List FileModel) (s : PrepState),
      ((files.foldl (prepFile env cname sid) s).results).map (fun r => r.file_id)
        = s.results.map (fun r => r.file_id)
          ++ (files.filter (fun f => !prep_failed env cname f)).map (fun f => f.id) := by
  intro files
  induction files with
  | nil => intro s; simp
  | cons f fs ih =>
    intro s
    rw [List.foldl_cons, List.filter_cons, ih (prepFile env cname sid s f),
      prepFile_results_ids]
    by_cases hp : prep_failed env cname f = true
    · simp [hp]
    · simp [hp]

/-- Splitting a list by a Boolean predicate partitions its length. -/
lemma length_filter_not_add {α : Type} (p : α → Bool) (l : List α) :
    (l.filter (fun a => !p a)).length + (l.filter p).length = l.length := by
  induction l with
  | nil => rfl
  | cons a l ih =>
    by_cases h : p a = true
    · simp [List.filter_cons, h]
      omega
    · simp [List.filter_cons, h]
      omega

/-- Characterization of the insertion-failure handler: any `prepared` entry
makes it raise the `ValidationError`; otherwise it returns the results
unchanged and appends nothing. -/
lemma markFailed_eq (msg : String) (l : List BatchProcessFilesResult) :
    markFailed msg l
      = if l.any (fun r => r.status = "prepared")
        then .error .validationError else .ok (l, []) := by
  induction l with
  | nil => rfl
  | cons r l ih =>
    unfold markFailed
    by_cases hst : r.status = "prepared"
    · simp [hst, mkBatchResult, List.any_cons]
    · simp only [hst, if_false, ite_false, List.any_cons, ih]
      by_cases h2 : l.any (fun r => r.status = "prepared")
      · simp [h2, hst]
      · simp [h2, hst]

/-- When `finalize` returns a response, the response's result ids are the
loop state's result ids (statuses may change, ids do not). -/
lemma finalize_ok_ids (env : BatchEnv) (s : PrepState)
    (resp : BatchProcessFilesResponse) (h : finalize env s = .ok resp) :
    resp.results.map (fun r => r.file_id) = s.results.map (fun r => r.file_id) := by
  unfold finalize at h
  by_cases hd : s.all_docs.isEmpty
  · rw [if_pos hd] at h
    injection h with h2
    cases h2
    rfl
  · rw [if_neg hd] at h
    cases hsv : env.saveDocs s.all_docs s.all_metadata with
    | ok u =>
      rw [hsv] at h
      injection h with h2
      cases h2
      have hfid : (fun (r : BatchProcessFilesResult) =>
          (if r.status = "prepared" then { r with status := "completed" } else r).file_id)
            = fun r => r.file_id := by
        funext r
        by_cases hr : r.status = "prepared" <;> simp [hr]
      simp only [List.map_map, Function.comp_def, hfid]
    | error e =>
      rw [hsv] at h
      simp only [] at h
      rw [markFailed_eq] at h
      by_cases hany : s.results.any (fun r => r.status = "prepared")
      · rw [if_pos hany] at h
        exact Except.noConfusion h
      · rw [if_neg hany] at h
        injection h with h2
        cases h2
        rfl

/-- Claim C2 (amended): whenever `process_files_batch` returns a response,
`results` lists — in input order — exactly the documents whose per-document
preparation did not raise, and `len(results)` plus the number of documents
whose preparation raised equals `len(documents)`; documents whose
preparation raised appear only in `errors`. -/
theorem process_files_batch_results_partition (env : BatchEnv)
    (files : List FileModel) (collection_name : Option String) (user_id : String)
    (session_id : Option String) (resp : BatchProcessFilesResponse)
    (h : process_files_batch env files collection_name user_id session_id
          = .ok resp) :
    resp.results.map (fun r => r.file_id)
      = (files.filter (fun f =>
          !prep_failed env (resolve_collection_name collection_name user_id) f)).map
          (fun f => f.id)
    ∧ resp.results.length
        + (files.filter (fun f =>
            prep_failed env (resolve_collection_name collection_name user_id) f)).length
      = files.length := by
  unfold process_files_batch prepPhase at h
  have hids := finalize_ok_ids env _ resp h
  rw [prep_foldl_results_ids env
    (resolve_collection_name collection_name user_id) session_id files
    ⟨[], [], [], [], []⟩] at hids
  simp only [List.map_nil, List.nil_append] at hids
  refine ⟨hids, ?_⟩
  have hlen : resp.results.length
      = (files.filter (fun f =>
          !prep_failed env (resolve_collection_name collection_name user_id) f)).length := by
    have := congrArg List.length hids
    simpa using this
  rw [hlen]
  exact length_filter_not_add _ files

/-- Witness for the amended C2 at a one-file batch that prepares cleanly. -/
theorem process_files_batch_results_partition_witness :
    (BatchProcessFilesResponse.mk [⟨"f1", "completed", none⟩] []).results.map
        (fun r => r.file_id)
      = ([fileA].filter (fun f =>
          !prep_failed envOk (resolve_collection_name (some "c") "u1") f)).map
          (fun f => f.id)
    ∧ (BatchProcessFilesResponse.mk [⟨"f1", "completed", none⟩] []).results.length
        + ([fileA].filter (fun f =>
            prep_failed envOk (resolve_collection_name (some "c") "u1") f)).length
      = [fileA].length :=
  process_files_batch_results_partition envOk [fileA] (some "c") "u1" none
    ⟨[⟨"f1", "completed", none⟩], []⟩ rfl

/-- Claim C10: when the duplicate-check query raises, the exception is
swallowed and the file is treated as not a duplicate: its entry is appended
to `results` as `prepared`, no error entry is recorded, and its document
joins the batch bound for the insertion path. -/
theorem prepFile_swallows_query_exception (env : BatchEnv) (cname : String)
    (sid : Option String) (s : PrepState) (f : FileModel) (m : Metadata)
    (hq : env.query cname (env.hashOf f.data_content) = .raised)
    (hm : f.meta = some m) :
    ((prepFile env cname sid s f).results
      = s.results ++ [⟨f.id, "prepared", none⟩])
    ∧ ((prepFile env cname sid s f).errors = s.errors)
    ∧ ((prepFile env cname sid s f).all_docs.length = s.all_docs.length + 1) := by
  simp [prepFile, hq, hm, dup_of]

/-- Witness for C10: a raising query environment with a file that otherwise
prepares cleanly. -/
theorem prepFile_swallows_query_exception_witness :
    ((prepFile envRaise "c" none emptyPrepState fileA).results
      = emptyPrepState.results ++ [⟨"f1", "prepared", none⟩])
    ∧ ((prepFile envRaise "c" none emptyPrepState fileA).errors
      = emptyPrepState.errors)
    ∧ ((prepFile envRaise "c" none emptyPrepState fileA).all_docs.length
      = emptyPrepState.all_docs.length + 1) :=
  prepFile_swallows_query_exception envRaise "c" none emptyPrepState fileA []
    rfl rfl

end Scout
